import Mathlib

/-!
Verification of the white-blood-cell crop-extraction pipeline in `extract.py`
(class `WhiteBloodCellDetector`).  The numeric state is embedded over `ℚ`;
Python's distinction between `int` and `float` values (which affects the
results of `max`/`min` and the rendering of numbers inside output filenames)
is carried explicitly by the `PyNum` type.  Code paths that raise a Python
exception (`ZeroDivisionError` in the aspect-ratio test, a decode failure in
`Image.open`, `FileNotFoundError` in `os.listdir`) are embedded as
`Except.error`, which aborts the run exactly as an uncaught exception does:
the source contains no `try`/`except`.
-/

set_option allowUnsafeReducibility true
attribute [local semireducible] Rat.add Rat.mul Rat.div Rat.sub Rat.inv Rat.neg

deriving instance DecidableEq for Except

/-- Boolean prefix test on character lists. -/
def isPrefixChars : List Char → List Char → Bool
  | [], _ => true
  | _ :: _, [] => false
  | c :: cs, d :: ds => c == d && isPrefixChars cs ds

/-- Embedding of Python `str.endswith` (and of `String.endsWith`): a
case-sensitive suffix test. -/
def strEndsWith (s post : String) : Bool :=
  isPrefixChars post.data.reverse s.data.reverse

/-- A Python number as it flows through `_process_image`: either an `int` or a
`float` (embedded as an exact rational; every value arising here is an integer
or a half-integer, so the embedding is exact). -/
inductive PyNum where
  | i : Int → PyNum
  | f : ℚ → PyNum
deriving DecidableEq, Repr

/-- Numeric value of a `PyNum`. -/
def PyNum.val : PyNum → ℚ
  | PyNum.i n => (n : ℚ)
  | PyNum.f q => q

/-- Python `max(a, b)`: returns the first argument unless the second is
strictly greater (so the result keeps the type of the chosen argument). -/
def pymax (a b : PyNum) : PyNum :=
  if a.val < b.val then b else a

/-- Python `min(a, b)`: returns the first argument unless the second is
strictly smaller. -/
def pymin (a b : PyNum) : PyNum :=
  if b.val < a.val then b else a

/-- Python subtraction on `PyNum`: `int - int` is an `int`, any mix involving
a `float` is a `float`. -/
def PyNum.sub : PyNum → PyNum → PyNum
  | PyNum.i a, PyNum.i b => PyNum.i (a - b)
  | a, b => PyNum.f (a.val - b.val)

/-- Rendering of a nonnegative rational with denominator 1 or 2 the way
Python `str` renders the corresponding `float`: `"170.0"`, `"2.5"`. -/
def pyFloatStrAux (q : ℚ) : String :=
  if q.den = 1 then toString q.num ++ ".0"
  else toString (q.num / 2) ++ ".5"

/-- Python `str` of a `float` whose exact value is an integer or a
half-integer (the only `float` values reaching a filename in this program). -/
def pyFloatStr (q : ℚ) : String :=
  if q < 0 then "-" ++ pyFloatStrAux (-q) else pyFloatStrAux q

/-- Python `str` of a `PyNum`, as interpolated into the output filename:
an `int` renders without a decimal point, a `float` with one. -/
def PyNum.pyStr : PyNum → String
  | PyNum.i n => toString n
  | PyNum.f q => pyFloatStr q

/-- Embedding of `"{:.2f}".format(conf)` for a nonnegative confidence:
round to two decimal places (half away from zero; no tie arises at the
precision used by the program) and print with exactly two digits. -/
def confFmt2 (q : ℚ) : String :=
  let n := (Rat.floor (q * 100 + 1 / 2)).toNat
  toString (n / 100) ++ "." ++ (if n % 100 < 10 then "0" else "") ++ toString (n % 100)

/-- A decoded raster image: `image.size = (width, height)` in PIL. -/
structure SourceImage where
  width : ℕ
  height : ℕ
deriving DecidableEq, Repr

/-- One element of `result.boxes`: a confidence score `box.conf` and the
integer-truncated coordinate rows of `box.xyxy` (each row is
`(left, top, right, bottom)` after `map(int, find)`). -/
structure DetBox where
  conf : ℚ
  xyxy : List (Int × Int × Int × Int)
deriving DecidableEq, Repr

/-- One result group produced by the model for one image. -/
structure DetResult where
  boxes : List DetBox
deriving DecidableEq, Repr

/-- One crop written by `image1.save(...)`: its generated base filename and
the clamped crop region `(left, top, right, bottom)` passed to `image.crop`. -/
structure SavedCrop where
  fname : String
  region : PyNum × PyNum × PyNum × PyNum
deriving DecidableEq, Repr

/-- One row appended to `output.csv` by `_save_to_csv`; the field names
follow the parameter names of `_save_to_csv` (and the CSV header), in the
order the columns are written. -/
structure CsvRow where
  filename : String
  confidence : String
  center_x : ℚ
  center_y : ℚ
  height : PyNum
  width : PyNum
deriving DecidableEq, Repr

/-- Embedding of `_save_to_csv(self, filename, confidence, center_x,
center_y, height, width)`: builds the row `[filename, confidence, center_x,
center_y, height, width]`. -/
def save_to_csv (filename confidence : String) (center_x center_y : ℚ)
    (height width : PyNum) : CsvRow :=
  ⟨filename, confidence, center_x, center_y, height, width⟩

/-- Embedding of lines 61-65 of `extract.py`: the crop window around
`mid = ((right+left)/2, (bottom+top)/2)`, clamped per edge with Python
`max`/`min` against the `int` bounds `0`, `image.size[0]`, `image.size[1]`.
The components are `(left, top, right, bottom)` after reassignment. -/
def cropRegion (left top right bottom : Int) (W H : ℕ) :
    PyNum × PyNum × PyNum × PyNum :=
  (pymax (PyNum.f (((right : ℚ) + (left : ℚ)) / 2 - 100)) (PyNum.i 0),
   pymax (PyNum.f (((bottom : ℚ) + (top : ℚ)) / 2 - 100)) (PyNum.i 0),
   pymin (PyNum.f (((right : ℚ) + (left : ℚ)) / 2 + 100)) (PyNum.i (W : Int)),
   pymin (PyNum.f (((bottom : ℚ) + (top : ℚ)) / 2 + 100)) (PyNum.i (H : Int)))

/-- Embedding of lines 61-73 for one accepted detection: the saved crop
(filename from the f-string on line 69, region from `cropRegion`) and, when
`save_csv` is set, the CSV row.  Note the call on line 73 passes
`right - left` as the `height` argument and `bottom - top` as the `width`
argument of `_save_to_csv`, while the filename binds `h` to `bottom - top`
and `w` to `right - left`. -/
def mkOutput (W H : ℕ) (fn cs : String) (save_csv : Bool) (i : ℕ)
    (left top right bottom : Int) : SavedCrop × Option CsvRow :=
  (⟨cs ++ "_" ++ fn ++ "_x_" ++ pyFloatStr (((right : ℚ) + (left : ℚ)) / 2)
      ++ "_y_" ++ pyFloatStr (((bottom : ℚ) + (top : ℚ)) / 2)
      ++ "_h_" ++ (PyNum.sub (cropRegion left top right bottom W H).2.2.2
                    (cropRegion left top right bottom W H).2.1).pyStr
      ++ "_w_" ++ (PyNum.sub (cropRegion left top right bottom W H).2.2.1
                    (cropRegion left top right bottom W H).1).pyStr
      ++ "_result" ++ toString i ++ ".jpg",
    cropRegion left top right bottom W H⟩,
   if save_csv then
     some (save_to_csv fn cs (((right : ℚ) + (left : ℚ)) / 2)
       (((bottom : ℚ) + (top : ℚ)) / 2)
       (PyNum.sub (cropRegion left top right bottom W H).2.2.1
         (cropRegion left top right bottom W H).1)
       (PyNum.sub (cropRegion left top right bottom W H).2.2.2
         (cropRegion left top right bottom W H).2.1))
   else none)

/-- Embedding of the body of `for find in xyxy` (lines 56-73) for one
coordinate row, after the confidence gate: `width = abs(left - right)`,
`height = abs(top - bottom)`, then the test
`(width / height < 0.7) or (height / width < 0.7)` with Python's left-to-right
evaluation and short-circuiting — a zero `height` raises `ZeroDivisionError`
on the first division; a zero `width` with nonzero `height` short-circuits to
a rejection because `0 / height < 0.7` is already true.  `ok none` is the
`continue` (rejection); `ok (some _)` is a saved detection. -/
def processFind (W H : ℕ) (fn cs : String) (save_csv : Bool) (i : ℕ)
    (left top right bottom : Int) :
    Except String (Option (SavedCrop × Option CsvRow)) :=
  if (top - bottom).natAbs = 0 then Except.error "ZeroDivisionError"
  else if ((left - right).natAbs : ℚ) / ((top - bottom).natAbs : ℚ) < 7 / 10 then
    Except.ok none
  else if (left - right).natAbs = 0 then Except.error "ZeroDivisionError"
  else if ((top - bottom).natAbs : ℚ) / ((left - right).natAbs : ℚ) < 7 / 10 then
    Except.ok none
  else Except.ok (some (mkOutput W H fn cs save_csv i left top right bottom))

/-- Runs `processFind` over the rows of `box.xyxy` in order, collecting the
saved detections; the first raised exception aborts (no handler exists in
the source). -/
def processFinds (W H : ℕ) (fn cs : String) (save_csv : Bool) (i : ℕ) :
    List (Int × Int × Int × Int) → Except String (List (SavedCrop × Option CsvRow))
  | [] => Except.ok []
  | find :: rest =>
    match processFind W H fn cs save_csv i find.1 find.2.1 find.2.2.1 find.2.2.2 with
    | Except.error e => Except.error e
    | Except.ok none => processFinds W H fn cs save_csv i rest
    | Except.ok (some x) =>
      match processFinds W H fn cs save_csv i rest with
      | Except.error e => Except.error e
      | Except.ok xs => Except.ok (x :: xs)

/-- Embedding of the body of `for box in result.boxes` (lines 49-73): the
confidence gate `if box.conf < 0.35: continue` followed by the per-row
processing; the formatted confidence string is computed once per box. -/
def processBox (W H : ℕ) (fn : String) (save_csv : Bool) (i : ℕ) (box : DetBox) :
    Except String (List (SavedCrop × Option CsvRow)) :=
  if box.conf < 7 / 20 then Except.ok []
  else processFinds W H fn (confFmt2 box.conf) save_csv i box.xyxy

/-- Sequencing of two exception-prone stages: outputs concatenate, the first
exception aborts. -/
def exSeq {α : Type} :
    Except String (List α) → Except String (List α) → Except String (List α)
  | Except.error e, _ => Except.error e
  | Except.ok _, Except.error e => Except.error e
  | Except.ok xs, Except.ok ys => Except.ok (xs ++ ys)

/-- Runs `processBox` over the boxes of one result group in order. -/
def processBoxes (W H : ℕ) (fn : String) (save_csv : Bool) (i : ℕ) :
    List DetBox → Except String (List (SavedCrop × Option CsvRow))
  | [] => Except.ok []
  | box :: rest =>
    exSeq (processBox W H fn save_csv i box) (processBoxes W H fn save_csv i rest)

/-- Embedding of `for i, result in enumerate(results)` (line 48): the group
index `i` is the enumeration index and is what `result{i}` in the filename
refers to. -/
def processResults (W H : ℕ) (fn : String) (save_csv : Bool) :
    ℕ → List DetResult → Except String (List (SavedCrop × Option CsvRow))
  | _, [] => Except.ok []
  | i, res :: rest =>
    exSeq (processBoxes W H fn save_csv i res.boxes)
      (processResults W H fn save_csv (i + 1) rest)

/-- Embedding of `_process_image` (lines 45-73).  `decoded` is the outcome of
`Image.open(image_path)`: `none` means the image fails to decode, in which
case PIL's exception propagates (the method has no handler). -/
def process_image (model : SourceImage → List DetResult) (save_csv : Bool)
    (filename : String) (decoded : Option SourceImage) :
    Except String (List (SavedCrop × Option CsvRow)) :=
  match decoded with
  | none => Except.error ("cannot identify image file " ++ filename)
  | some image => processResults image.width image.height filename save_csv 0 (model image)

/-- Embedding of line 79: the directory entries kept as input images. -/
def image_files (fs : List String) : List String :=
  fs.filter (fun f => strEndsWith f ".jpg")

/-- Runs `_process_image` over the selected files in listing order; the first
uncaught exception aborts the loop (lines 89-92 have no handler). -/
def runImages (images : String → Option SourceImage)
    (model : SourceImage → List DetResult) (save_csv : Bool) :
    List String → Except String (List (SavedCrop × Option CsvRow))
  | [] => Except.ok []
  | f :: rest =>
    exSeq (process_image model save_csv f (images f))
      (runImages images model save_csv rest)

/-- Aggregate outcome of one `extract()` run: the crops written, the CSV rows
appended, and the progress messages printed by `extract` itself. -/
structure ExtractResult where
  crops : List SavedCrop
  rows : List CsvRow
  msgs : List String
deriving DecidableEq, Repr

/-- Embedding of `extract` (lines 75-92).  `listing` is the outcome of
`os.listdir(self.input_directory)`: `none` means the directory is missing, in
which case `FileNotFoundError` propagates.  Otherwise the `.jpg` entries are
selected; an empty selection prints a report and returns normally; otherwise
every selected file is processed in order and the run aborts on the first
uncaught exception. -/
def extract (input_directory : String) (listing : Option (List String))
    (images : String → Option SourceImage) (model : SourceImage → List DetResult)
    (save_csv : Bool) : Except String ExtractResult :=
  match listing with
  | none => Except.error "FileNotFoundError"
  | some fs =>
    if (image_files fs).length = 0 then
      Except.ok ⟨[], [], ["No .jpg images found in the input directory: " ++ input_directory]⟩
    else
      match runImages images model save_csv (image_files fs) with
      | Except.error e => Except.error e
      | Except.ok outs =>
        Except.ok ⟨outs.map Prod.fst, outs.filterMap Prod.snd,
          ["Input directory set to " ++ input_directory ++ " with "
            ++ toString (image_files fs).length ++ " images."]⟩

/-- The worked example's decoded image: `cell01.jpg`, 400 by 400. -/
def exampleImages : String → Option SourceImage :=
  fun f => if f = "cell01.jpg" then some ⟨400, 400⟩ else none

/-- The worked example's mocked detection source: one result group with one
box of confidence 0.812 and coordinates (150, 160, 190, 200). -/
def exampleModel : SourceImage → List DetResult :=
  fun _ => [⟨[⟨203 / 250, [(150, 160, 190, 200)]⟩]⟩]

/-- Decode behaviour where `a.jpg` is a corrupt file and every other file
decodes as a 400 by 400 image. -/
def imagesDecodeFailA : String → Option SourceImage :=
  fun f => if f = "a.jpg" then none else some ⟨400, 400⟩

/-- Value of the first (left) component of the crop region. -/
theorem cropRegion_val_1 (l t r b : Int) (W H : ℕ) :
    (cropRegion l t r b W H).1.val = max (((r : ℚ) + (l : ℚ)) / 2 - 100) 0 := by
  simp only [cropRegion, pymax, PyNum.val]
  split_ifs with h
  · simp only [PyNum.val, Int.cast_zero] at h ⊢
    exact (max_eq_right h.le).symm
  · simp only [PyNum.val, Int.cast_zero] at h ⊢
    exact (max_eq_left (not_lt.mp h)).symm

/-- Value of the second (top) component of the crop region. -/
theorem cropRegion_val_2 (l t r b : Int) (W H : ℕ) :
    (cropRegion l t r b W H).2.1.val = max (((b : ℚ) + (t : ℚ)) / 2 - 100) 0 := by
  simp only [cropRegion, pymax, PyNum.val]
  split_ifs with h
  · simp only [PyNum.val, Int.cast_zero] at h ⊢
    exact (max_eq_right h.le).symm
  · simp only [PyNum.val, Int.cast_zero] at h ⊢
    exact (max_eq_left (not_lt.mp h)).symm

/-- Value of the third (right) component of the crop region. -/
theorem cropRegion_val_3 (l t r b : Int) (W H : ℕ) :
    (cropRegion l t r b W H).2.2.1.val = min (((r : ℚ) + (l : ℚ)) / 2 + 100) (W : ℚ) := by
  simp only [cropRegion, pymin, PyNum.val]
  split_ifs with h
  · simp only [PyNum.val, Int.cast_natCast] at h ⊢
    exact (min_eq_right h.le).symm
  · simp only [PyNum.val, Int.cast_natCast] at h ⊢
    exact (min_eq_left (not_lt.mp h)).symm

/-- Value of the fourth (bottom) component of the crop region. -/
theorem cropRegion_val_4 (l t r b : Int) (W H : ℕ) :
    (cropRegion l t r b W H).2.2.2.val = min (((b : ℚ) + (t : ℚ)) / 2 + 100) (H : ℚ) := by
  simp only [cropRegion, pymin, PyNum.val]
  split_ifs with h
  · simp only [PyNum.val, Int.cast_natCast] at h ⊢
    exact (min_eq_right h.le).symm
  · simp only [PyNum.val, Int.cast_natCast] at h ⊢
    exact (min_eq_left (not_lt.mp h)).symm

/-- For positive rationals the two one-sided ratio tests are mirror images:
`0.7 ≤ h/w` holds exactly when `w/h ≤ 10/7`. -/
theorem ratio_band_flip {w h : ℚ} (hw : 0 < w) (hh : 0 < h) :
    7 / 10 ≤ h / w ↔ w / h ≤ 10 / 7 := by
  rw [le_div_iff₀ hw, div_le_iff₀ hh]
  constructor <;> intro h1 <;> linarith

/-- C1: the claim says a confident detection whose box has zero width or zero
height is silently rejected and the batch continues.  In the code the
aspect-ratio test evaluates `width / height` first, so a zero-height box
raises `ZeroDivisionError`, which no handler catches: here a detection with
confidence 0.5 (above the 0.35 threshold) and box (10, 20, 50, 20) — height
zero — makes the per-box processing abort with the error instead of
yielding a rejection. -/
theorem C1_zero_height_box_raises :
    processBox 400 400 "img.jpg" true 0 ⟨1 / 2, [(10, 20, 50, 20)]⟩ =
      Except.error "ZeroDivisionError" := by decide

/-- C2: the claim says the appended CSV row's `height` field equals the crop
region's vertical span and its `width` field the horizontal span.  On image
150 by 400 with box (0, 100, 140, 200) (confidence 0.9) the clamped region is
(0, 50.0, 150, 250.0), with horizontal span 150 and vertical span 200.0 — and
the code appends the row with `height = right - left = 150` and
`width = bottom - top = 200.0`, i.e. the two fields are swapped relative to
the claim (and to the code's own CSV header). -/
theorem C2_csv_fields_swapped :
    processBox 150 400 "a.jpg" true 0 ⟨9 / 10, [(0, 100, 140, 200)]⟩ =
      Except.ok [(⟨"0.90_a.jpg_x_70.0_y_150.0_h_200.0_w_150_result0.jpg",
          (PyNum.i 0, PyNum.f 50, PyNum.i 150, PyNum.f 250)⟩,
        some ⟨"a.jpg", "0.90", 70, 150, PyNum.i 150, PyNum.f 200⟩)] := by decide

/-- C5 (counterexample): the run on the worked example does not produce the
claimed filename `0.81_cell01.jpg_x_170.0_y_180.0_h_200_w_200_result0.jpg`;
the crop-region spans are Python floats (`280.0 - 80.0` etc.), so they render
as `200.0`, not `200`. -/
theorem C5_filename_counterexample :
    ¬ (extract "indir" (some ["cell01.jpg"]) exampleImages exampleModel true).map
        (fun res => res.crops.map SavedCrop.fname) =
      Except.ok ["0.81_cell01.jpg_x_170.0_y_180.0_h_200_w_200_result0.jpg"] := by decide

/-- C5 (as amended): on the worked example the detection is accepted, the
clamped crop region is (70.0, 80.0, 270.0, 280.0), the output file is named
`0.81_cell01.jpg_x_170.0_y_180.0_h_200.0_w_200.0_result0.jpg`, and exactly one
row (cell01.jpg, 0.81, 170.0, 180.0, 200.0, 200.0) is appended. -/
theorem C5_worked_example :
    extract "indir" (some ["cell01.jpg"]) exampleImages exampleModel true =
      Except.ok ⟨[⟨"0.81_cell01.jpg_x_170.0_y_180.0_h_200.0_w_200.0_result0.jpg",
          (PyNum.f 70, PyNum.f 80, PyNum.f 270, PyNum.f 280)⟩],
        [⟨"cell01.jpg", "0.81", 170, 180, PyNum.f 200, PyNum.f 200⟩],
        ["Input directory set to indir with 1 images."]⟩ := by decide

/-- C7: the claim says a decode failure skips that image and the remaining
images still process.  With listing [a.jpg, b.jpg] where a.jpg fails to
decode, the exception from `Image.open` propagates (no `try`/`except` in
`_process_image` or `extract`) and the whole run aborts before b.jpg is
processed. -/
theorem C7_decode_failure_aborts :
    extract "indir" (some ["a.jpg", "b.jpg"]) imagesDecodeFailA (fun _ => []) false =
      Except.error "cannot identify image file a.jpg" := by decide

/-- C8 (counterexample): the claim says a missing input directory is reported
and the run terminates normally.  In the code `os.listdir` raises
`FileNotFoundError`, which nothing catches, so the run is aborted by the
exception rather than ending normally. -/
theorem C8_missing_directory_fatal :
    extract "missing" none (fun _ => none) (fun _ => []) false =
      Except.error "FileNotFoundError" := by decide

/-- C8 (as amended): if the input directory exists but contains zero files
ending in `.jpg`, the condition is reported and the run terminates normally
with zero output files and zero table rows. -/
theorem C8_empty_input_normal (d : String) (fs : List String)
    (g : String → Option SourceImage) (m : SourceImage → List DetResult) (sc : Bool)
    (h : image_files fs = []) :
    extract d (some fs) g m sc =
      Except.ok ⟨[], [], ["No .jpg images found in the input directory: " ++ d]⟩ := by
  simp [extract, h]

/-- Witness for `C8_empty_input_normal` at a concrete directory listing. -/
theorem C8_empty_input_witness :
    extract "d" (some ["readme.txt"]) (fun _ => none) (fun _ => []) false =
      Except.ok ⟨[], [], ["No .jpg images found in the input directory: " ++ "d"]⟩ :=
  C8_empty_input_normal "d" ["readme.txt"] (fun _ => none) (fun _ => []) false (by decide)

/-- C4: the crop window calculator returns exactly
`(max(cx-100,0), max(cy-100,0), min(cx+100,W), min(cy+100,H))` for the
real-valued box center `(cx, cy) = ((right+left)/2, (bottom+top)/2)`, and
when the center is at least 100 pixels from every border the region is
exactly 200 by 200 and centered on the detection center. -/
theorem C4_crop_window (l t r b : Int) (W H : ℕ) :
    ((cropRegion l t r b W H).1.val = max (((r : ℚ) + (l : ℚ)) / 2 - 100) 0
      ∧ (cropRegion l t r b W H).2.1.val = max (((b : ℚ) + (t : ℚ)) / 2 - 100) 0
      ∧ (cropRegion l t r b W H).2.2.1.val = min (((r : ℚ) + (l : ℚ)) / 2 + 100) (W : ℚ)
      ∧ (cropRegion l t r b W H).2.2.2.val = min (((b : ℚ) + (t : ℚ)) / 2 + 100) (H : ℚ))
    ∧ (100 ≤ ((r : ℚ) + (l : ℚ)) / 2 → 100 ≤ ((b : ℚ) + (t : ℚ)) / 2 →
        ((r : ℚ) + (l : ℚ)) / 2 + 100 ≤ (W : ℚ) → ((b : ℚ) + (t : ℚ)) / 2 + 100 ≤ (H : ℚ) →
        (cropRegion l t r b W H).2.2.1.val - (cropRegion l t r b W H).1.val = 200
        ∧ (cropRegion l t r b W H).2.2.2.val - (cropRegion l t r b W H).2.1.val = 200
        ∧ ((cropRegion l t r b W H).1.val + (cropRegion l t r b W H).2.2.1.val) / 2
            = ((r : ℚ) + (l : ℚ)) / 2
        ∧ ((cropRegion l t r b W H).2.1.val + (cropRegion l t r b W H).2.2.2.val) / 2
            = ((b : ℚ) + (t : ℚ)) / 2) := by
  refine ⟨⟨cropRegion_val_1 l t r b W H, cropRegion_val_2 l t r b W H,
    cropRegion_val_3 l t r b W H, cropRegion_val_4 l t r b W H⟩, ?_⟩
  intro h1 h2 h3 h4
  rw [cropRegion_val_1, cropRegion_val_2, cropRegion_val_3, cropRegion_val_4,
    max_eq_left (by linarith), max_eq_left (by linarith), min_eq_left h3, min_eq_left h4]
  refine ⟨by ring, by ring, by ring, by ring⟩

/-- Witness for `C4_crop_window` at the worked example's box, whose center
(170, 180) is at least 100 pixels from every border of the 400 by 400
image. -/
theorem C4_crop_window_witness :
    (cropRegion 150 160 190 200 400 400).2.2.1.val - (cropRegion 150 160 190 200 400 400).1.val = 200
    ∧ (cropRegion 150 160 190 200 400 400).2.2.2.val - (cropRegion 150 160 190 200 400 400).2.1.val = 200
    ∧ ((cropRegion 150 160 190 200 400 400).1.val + (cropRegion 150 160 190 200 400 400).2.2.1.val) / 2
        = (((190 : Int) : ℚ) + ((150 : Int) : ℚ)) / 2
    ∧ ((cropRegion 150 160 190 200 400 400).2.1.val + (cropRegion 150 160 190 200 400 400).2.2.2.val) / 2
        = (((200 : Int) : ℚ) + ((160 : Int) : ℚ)) / 2 :=
  (C4_crop_window 150 160 190 200 400 400).2 (by norm_num) (by norm_num) (by norm_num) (by norm_num)

/-- C6: for a detection box inside the image bounds the computed crop region
satisfies `0 ≤ left ≤ right ≤ W`, `0 ≤ top ≤ bottom ≤ H`, and both spans are
at most 200. -/
theorem C6_region_invariant (l t r b : Int) (W H : ℕ)
    (h1 : 0 ≤ l) (h2 : l ≤ r) (h3 : r ≤ (W : Int))
    (h4 : 0 ≤ t) (h5 : t ≤ b) (h6 : b ≤ (H : Int)) :
    (0 ≤ (cropRegion l t r b W H).1.val
      ∧ (cropRegion l t r b W H).1.val ≤ (cropRegion l t r b W H).2.2.1.val
      ∧ (cropRegion l t r b W H).2.2.1.val ≤ (W : ℚ))
    ∧ (0 ≤ (cropRegion l t r b W H).2.1.val
      ∧ (cropRegion l t r b W H).2.1.val ≤ (cropRegion l t r b W H).2.2.2.val
      ∧ (cropRegion l t r b W H).2.2.2.val ≤ (H : ℚ))
    ∧ (cropRegion l t r b W H).2.2.1.val - (cropRegion l t r b W H).1.val ≤ 200
    ∧ (cropRegion l t r b W H).2.2.2.val - (cropRegion l t r b W H).2.1.val ≤ 200 := by
  have q1 : (0 : ℚ) ≤ (l : ℚ) := by exact_mod_cast h1
  have q2 : (l : ℚ) ≤ (r : ℚ) := by exact_mod_cast h2
  have q3 : (r : ℚ) ≤ (W : ℚ) := by exact_mod_cast h3
  have q4 : (0 : ℚ) ≤ (t : ℚ) := by exact_mod_cast h4
  have q5 : (t : ℚ) ≤ (b : ℚ) := by exact_mod_cast h5
  have q6 : (b : ℚ) ≤ (H : ℚ) := by exact_mod_cast h6
  have hW : (0 : ℚ) ≤ (W : ℚ) := by positivity
  have hH : (0 : ℚ) ≤ (H : ℚ) := by positivity
  rw [cropRegion_val_1, cropRegion_val_2, cropRegion_val_3, cropRegion_val_4]
  refine ⟨⟨le_max_right _ _, max_le (le_min (by linarith) (by linarith))
      (le_min (by linarith) hW), min_le_right _ _⟩,
    ⟨le_max_right _ _, max_le (le_min (by linarith) (by linarith))
      (le_min (by linarith) hH), min_le_right _ _⟩, ?_, ?_⟩
  · have ha := min_le_left (((r : ℚ) + (l : ℚ)) / 2 + 100) (W : ℚ)
    have hb := le_max_left (((r : ℚ) + (l : ℚ)) / 2 - 100) (0 : ℚ)
    linarith
  · have ha := min_le_left (((b : ℚ) + (t : ℚ)) / 2 + 100) (H : ℚ)
    have hb := le_max_left (((b : ℚ) + (t : ℚ)) / 2 - 100) (0 : ℚ)
    linarith

/-- Witness for `C6_region_invariant` at the worked example's box and image
size. -/
theorem C6_region_invariant_witness :
    (0 ≤ (cropRegion 150 160 190 200 400 400).1.val
      ∧ (cropRegion 150 160 190 200 400 400).1.val ≤ (cropRegion 150 160 190 200 400 400).2.2.1.val
      ∧ (cropRegion 150 160 190 200 400 400).2.2.1.val ≤ ((400 : ℕ) : ℚ))
    ∧ (0 ≤ (cropRegion 150 160 190 200 400 400).2.1.val
      ∧ (cropRegion 150 160 190 200 400 400).2.1.val ≤ (cropRegion 150 160 190 200 400 400).2.2.2.val
      ∧ (cropRegion 150 160 190 200 400 400).2.2.2.val ≤ ((400 : ℕ) : ℚ))
    ∧ (cropRegion 150 160 190 200 400 400).2.2.1.val - (cropRegion 150 160 190 200 400 400).1.val ≤ 200
    ∧ (cropRegion 150 160 190 200 400 400).2.2.2.val - (cropRegion 150 160 190 200 400 400).2.1.val ≤ 200 :=
  C6_region_invariant 150 160 190 200 400 400 (by decide) (by decide) (by decide)
    (by decide) (by decide) (by decide)

/-- C3: for a single detection whose box has nonzero width and height, the
pipeline saves exactly one crop iff the confidence is at least 0.35 and the
aspect ratio `width/height` lies in [7/10, 10/7]; it silently rejects the
detection (zero crops, no fault) iff the confidence is below 0.35 or
`width/height < 0.7` or `height/width < 0.7`. -/
theorem C3_filter_characterization (W H : ℕ) (fn : String) (sc : Bool) (conf : ℚ)
    (l t r b : Int) (hw : (l - r).natAbs ≠ 0) (hh : (t - b).natAbs ≠ 0) :
    ((processBox W H fn sc 0 ⟨conf, [(l, t, r, b)]⟩).toOption.map List.length = some 1
      ↔ (7 / 20 ≤ conf
          ∧ 7 / 10 ≤ ((l - r).natAbs : ℚ) / ((t - b).natAbs : ℚ)
          ∧ ((l - r).natAbs : ℚ) / ((t - b).natAbs : ℚ) ≤ 10 / 7))
    ∧ ((processBox W H fn sc 0 ⟨conf, [(l, t, r, b)]⟩).toOption.map List.length = some 0
      ↔ (conf < 7 / 20
          ∨ ((l - r).natAbs : ℚ) / ((t - b).natAbs : ℚ) < 7 / 10
          ∨ ((t - b).natAbs : ℚ) / ((l - r).natAbs : ℚ) < 7 / 10)) := by
  have hwq : (0 : ℚ) < ((l - r).natAbs : ℚ) := by exact_mod_cast Nat.pos_of_ne_zero hw
  have hhq : (0 : ℚ) < ((t - b).natAbs : ℚ) := by exact_mod_cast Nat.pos_of_ne_zero hh
  by_cases hc : conf < 7 / 20
  · have hres : processBox W H fn sc 0 ⟨conf, [(l, t, r, b)]⟩ = Except.ok [] := by
      simp [processBox, hc]
    rw [hres]
    constructor
    · constructor
      · intro hcon; simp [Except.toOption] at hcon
      · rintro ⟨h1, -, -⟩; exact absurd hc (not_lt.mpr h1)
    · exact ⟨fun _ => Or.inl hc, fun _ => rfl⟩
  · by_cases h2 : ((l - r).natAbs : ℚ) / ((t - b).natAbs : ℚ) < 7 / 10
    · have hres : processBox W H fn sc 0 ⟨conf, [(l, t, r, b)]⟩ = Except.ok [] := by
        simp [processBox, hc, processFinds, processFind, hh, h2]
      rw [hres]
      constructor
      · constructor
        · intro hcon; simp [Except.toOption] at hcon
        · rintro ⟨-, hge, -⟩; exact absurd h2 (not_lt.mpr hge)
      · exact ⟨fun _ => Or.inr (Or.inl h2), fun _ => rfl⟩
    · by_cases h3 : ((t - b).natAbs : ℚ) / ((l - r).natAbs : ℚ) < 7 / 10
      · have hres : processBox W H fn sc 0 ⟨conf, [(l, t, r, b)]⟩ = Except.ok [] := by
          simp [processBox, hc, processFinds, processFind, hh, hw, h2, h3]
        rw [hres]
        have hub : ¬ ((l - r).natAbs : ℚ) / ((t - b).natAbs : ℚ) ≤ 10 / 7 := by
          rw [← ratio_band_flip hwq hhq]
          exact not_le.mpr h3
        constructor
        · constructor
          · intro hcon; simp [Except.toOption] at hcon
          · rintro ⟨-, -, hle⟩; exact absurd hle hub
        · exact ⟨fun _ => Or.inr (Or.inr h3), fun _ => rfl⟩
      · have hres : processBox W H fn sc 0 ⟨conf, [(l, t, r, b)]⟩
            = Except.ok [mkOutput W H fn (confFmt2 conf) sc 0 l t r b] := by
          simp [processBox, hc, processFinds, processFind, hh, hw, h2, h3]
        rw [hres]
        have hge : 7 / 10 ≤ ((l - r).natAbs : ℚ) / ((t - b).natAbs : ℚ) := not_lt.mp h2
        have hle : ((l - r).natAbs : ℚ) / ((t - b).natAbs : ℚ) ≤ 10 / 7 :=
          (ratio_band_flip hwq hhq).mp (not_lt.mp h3)
        constructor
        · exact ⟨fun _ => ⟨not_lt.mp hc, hge, hle⟩, fun _ => rfl⟩
        · constructor
          · intro hcon; simp [Except.toOption] at hcon
          · rintro (hx | hx | hx)
            · exact absurd hx hc
            · exact absurd hx h2
            · exact absurd hx h3

/-- Witness for `C3_filter_characterization` at a confident square box:
confidence 0.5, box (0, 0, 40, 40). -/
theorem C3_filter_witness :
    ((processBox 400 400 "a.jpg" false 0 ⟨1 / 2, [(0, 0, 40, 40)]⟩).toOption.map List.length = some 1
      ↔ (7 / 20 ≤ (1 / 2 : ℚ)
          ∧ 7 / 10 ≤ ((((0 : Int) - 40).natAbs : ℚ) / (((0 : Int) - 40).natAbs : ℚ))
          ∧ ((((0 : Int) - 40).natAbs : ℚ) / (((0 : Int) - 40).natAbs : ℚ)) ≤ 10 / 7))
    ∧ ((processBox 400 400 "a.jpg" false 0 ⟨1 / 2, [(0, 0, 40, 40)]⟩).toOption.map List.length = some 0
      ↔ ((1 / 2 : ℚ) < 7 / 20
          ∨ ((((0 : Int) - 40).natAbs : ℚ) / (((0 : Int) - 40).natAbs : ℚ)) < 7 / 10
          ∨ ((((0 : Int) - 40).natAbs : ℚ) / (((0 : Int) - 40).natAbs : ℚ)) < 7 / 10)) :=
  C3_filter_characterization 400 400 "a.jpg" false (1 / 2) 0 0 40 40 (by decide) (by decide)

/-- C9: the extraction pipeline is deterministic — two runs over the same
directory listing, the same decode outcomes and the same (mocked) detection
source produce the same set of output filenames and the same sequence of
table rows (recording having truncated the previous table, the table after
each run is exactly that run's rows). -/
theorem C9_deterministic (d : String) (fs1 fs2 : Option (List String))
    (g1 g2 : String → Option SourceImage) (m1 m2 : SourceImage → List DetResult)
    (h1 : fs1 = fs2) (h2 : g1 = g2) (h3 : m1 = m2) :
    (extract d fs1 g1 m1 true).map (fun res => (res.crops.map SavedCrop.fname, res.rows)) =
      (extract d fs2 g2 m2 true).map (fun res => (res.crops.map SavedCrop.fname, res.rows)) := by
  rw [h1, h2, h3]

/-- Witness for `C9_deterministic`: two runs on the worked example agree. -/
theorem C9_deterministic_witness :
    (extract "indir" (some ["cell01.jpg"]) exampleImages exampleModel true).map
        (fun res => (res.crops.map SavedCrop.fname, res.rows)) =
      (extract "indir" (some ["cell01.jpg"]) exampleImages exampleModel true).map
        (fun res => (res.crops.map SavedCrop.fname, res.rows)) :=
  C9_deterministic "indir" (some ["cell01.jpg"]) (some ["cell01.jpg"])
    exampleImages exampleImages exampleModel exampleModel rfl rfl rfl

/-- C10: exactly the entries ending in lowercase `.jpg` are treated as input
images — the filter keeps `x.jpg` but drops `y.JPG`, `z.jpeg` and `w.png`
from a sample listing — and removing the non-matching entries from the
listing changes nothing about the run: no outputs, no report and no error
come from them. -/
theorem C10_lowercase_jpg_only (d : String) (fs : List String)
    (g : String → Option SourceImage) (m : SourceImage → List DetResult) (sc : Bool) :
    image_files ["x.jpg", "y.JPG", "z.jpeg", "w.png"] = ["x.jpg"]
    ∧ extract d (some fs) g m sc = extract d (some (image_files fs)) g m sc := by
  constructor
  · decide
  · have h : image_files (image_files fs) = image_files fs := by
      simp [image_files, List.filter_filter]
    simp only [extract, h]
